import Mathlib

/-!
Shallow embedding of `src/backend/agent.py` (vehicle registry call assistant).

The embedded core is:
- `Car` / `DatabaseDriver` — the SQLite-backed record store (`cars` table with
  `vin TEXT PRIMARY KEY`), modelled as a list of rows; a duplicate-key INSERT
  is the `DBError.integrityError` value of the `Except` monad (Python:
  `sqlite3.IntegrityError` raised out of `DatabaseDriver.create_car`).
- `AssistantFnc` — the in-memory `_car_details` session cache (dict keyed by
  the `CarDetails` enum in insertion order vin, make, model, year; the year
  slot holds the string rendering `str(year)` after an update and `""`
  initially, matching the dict that starts with four empty strings).
- `handle_msg` — the `@session.on("user_message")` handler: the if/elif
  keyword classifier and its `try/except (IndexError, ValueError)` parsing,
  with uncaught exceptions appearing as `Except.error`.

String helpers model the Python primitives used by the handler for ASCII
text: `pyLower` is `str.lower` (ASCII range), `pySplit` is no-argument
`str.split` (runs of whitespace, empty pieces dropped), `idxOf` is
`list.index` returning `none` where Python raises `ValueError`, and `pyInt`
is `int(token)` on a whitespace-free token (optional sign, ASCII digits,
single underscores between digits).
-/

/-- Python `str.lower` on one character, ASCII range: `A`-`Z` maps down by 32,
everything else is unchanged. -/
def pyToLower (c : Char) : Char :=
  if 'A' ≤ c ∧ c ≤ 'Z' then Char.ofNat (c.toNat + 32) else c

/-- Python `msg.lower()` for ASCII text. -/
def pyLower (s : String) : String :=
  String.mk (s.data.map pyToLower)

/-- Whitespace characters recognised by no-argument Python `str.split`
(ASCII range). -/
def pyIsSpace (c : Char) : Bool :=
  c == ' ' || c == '\t' || c == '\n' || c == '\r' || c == '\x0b' || c == '\x0c'

/-- Worker for `pySplit`: walks the characters keeping the current word
reversed in `acc`, emitting a word at each whitespace run boundary. -/
def wordsAux : List Char → List Char → List String
  | [], acc => if acc.isEmpty then [] else [String.mk acc.reverse]
  | c :: rest, acc =>
    if pyIsSpace c then
      if acc.isEmpty then wordsAux rest []
      else String.mk acc.reverse :: wordsAux rest []
    else
      wordsAux rest (c :: acc)

/-- Python `msg.split()` with no separator: split on runs of whitespace,
discarding empty pieces. -/
def pySplit (s : String) : List String :=
  wordsAux s.data []

/-- Is `pat` a leading piece of `l`? -/
def listStartsWith : List Char → List Char → Bool
  | [], _ => true
  | _ :: _, [] => false
  | p :: ps, c :: cs => p == c && listStartsWith ps cs

/-- Does `l` contain `pat` as a contiguous run? -/
def listContains : List Char → List Char → Bool
  | pat, [] => listStartsWith pat []
  | pat, c :: t => listStartsWith pat (c :: t) || listContains pat t

/-- Python `pat in s` substring test. -/
def strContains (s pat : String) : Bool :=
  listContains pat.data s.data

/-- Python `parts.index(x)` made total: `some` of the position of the first
occurrence, `none` where Python raises `ValueError`. -/
def idxOf (x : String) : List String → Option Nat
  | [] => none
  | a :: rest => if a == x then some 0 else (idxOf x rest).map (fun n => n + 1)

/-- Digit tail of Python `int(token)`: after the first digit, accepts digits
with single underscores allowed between digits. -/
def pyDigitsGo : List Char → Nat → Option Nat
  | [], acc => some acc
  | '_' :: c :: rest, acc =>
    if c.isDigit then pyDigitsGo rest (acc * 10 + (c.toNat - 48)) else none
  | ['_'], _ => none
  | c :: rest, acc =>
    if c.isDigit then pyDigitsGo rest (acc * 10 + (c.toNat - 48)) else none

/-- Unsigned part of Python `int(token)`: one ASCII digit, then `pyDigitsGo`. -/
def pyDigits : List Char → Option Nat
  | [] => none
  | c :: rest => if c.isDigit then pyDigitsGo rest (c.toNat - 48) else none

/-- Python `int(token)` on a token produced by `str.split` (so free of
whitespace): optional sign followed by ASCII digits; `none` where Python
raises `ValueError`. -/
def pyInt (s : String) : Option Int :=
  match s.data with
  | '+' :: rest => (pyDigits rest).map (fun n => (n : Int))
  | '-' :: rest => (pyDigits rest).map (fun n => -(n : Int))
  | l => (pyDigits l).map (fun n => (n : Int))

/-- The `Car` dataclass: one row of the `cars` table. -/
structure Car where
  vin : String
  make : String
  model : String
  year : Int
deriving DecidableEq

/-- The one error the database layer raises in this core: SQLite's
`IntegrityError` on a duplicate `PRIMARY KEY` insert. -/
inductive DBError where
  | integrityError
deriving DecidableEq

namespace DatabaseDriver

/-- Model of `DatabaseDriver.get_car_by_vin`: `SELECT * FROM cars WHERE vin = ?` with
`fetchone`; SQLite TEXT equality is case-sensitive (default BINARY
collation), hence `==` on the stored string. -/
def get_car_by_vin (store : List Car) (vin : String) : Option Car :=
  store.find? (fun c => c.vin == vin)

/-- Model of `DatabaseDriver.create_car`: `INSERT INTO cars ...`. The `vin` column is
the PRIMARY KEY, so the insert fails with `IntegrityError` exactly when a row
with this vin exists; otherwise the row is appended and the `Car` built from
the arguments is returned unchanged. -/
def create_car (store : List Car) (vin make model : String) (year : Int) :
    Except DBError (Car × List Car) :=
  if store.any (fun c => c.vin == vin) then
    .error .integrityError
  else
    let car : Car := ⟨vin, make, model, year⟩
    .ok (car, store ++ [car])

end DatabaseDriver

/-- The `AssistantFnc._car_details` dict: four slots in fixed insertion order
vin, make, model, year. Values are the strings rendered by `get_car_str`
(f-string `{value}`); the year slot holds `str(year)` once set, `""` at
construction. -/
structure AssistantFnc where
  vin : String
  make : String
  model : String
  year : String
deriving DecidableEq

namespace AssistantFnc

/-- Model of `AssistantFnc.__init__`: every detail slot starts as the empty string. -/
def init : AssistantFnc := ⟨"", "", "", ""⟩

/-- Model of `AssistantFnc.get_car_str`: the fixed-order field-labelled rendering. -/
def get_car_str (st : AssistantFnc) : String :=
  "vin: " ++ st.vin ++ "\n" ++ "make: " ++ st.make ++ "\n" ++
  "model: " ++ st.model ++ "\n" ++ "year: " ++ st.year

/-- Model of `AssistantFnc.lookup_car`: a miss answers `"Car not found"` and leaves the
details untouched; a hit overwrites all four detail slots from the record and
renders them. -/
def lookup_car (st : AssistantFnc) (store : List Car) (vin : String) :
    String × AssistantFnc :=
  match DatabaseDriver.get_car_by_vin store vin with
  | none => ("Car not found", st)
  | some r =>
    let st' : AssistantFnc := ⟨r.vin, r.make, r.model, toString r.year⟩
    ("The car details are:\n" ++ get_car_str st', st')

/-- Model of `AssistantFnc.create_car`: calls the database driver (whose failure is a
raised exception, here `Except.error`); on return it checks `result is None`
— kept as the `Option` match below — before setting the details. -/
def create_car (st : AssistantFnc) (store : List Car) (vin make model : String)
    (year : Int) : Except DBError (String × AssistantFnc × List Car) :=
  match DatabaseDriver.create_car store vin make model year with
  | .error e => .error e
  | .ok (result, store') =>
    let result_opt : Option Car := some result
    match result_opt with
    | none => .ok ("Failed to create car", st, store')
    | some r =>
      let st' : AssistantFnc := ⟨r.vin, r.make, r.model, toString r.year⟩
      .ok ("Car profile created!", st', store')

/-- Model of `AssistantFnc.get_car_details`: empty vin slot means no profile yet. -/
def get_car_details (st : AssistantFnc) : String :=
  if st.vin == "" then "No car profile set yet."
  else "Current car:\n" ++ get_car_str st

/-- Model of `AssistantFnc.has_car`: `bool(self._car_details[CarDetails.VIN])`. -/
def has_car (st : AssistantFnc) : Bool :=
  !(st.vin == "")

end AssistantFnc

/-- Retry prompt of the malformed-lookup branch. -/
def lookup_retry_msg : String :=
  "Please provide a VIN after the word 'vin' to look up."

/-- Retry prompt of the malformed-create branch. -/
def create_retry_msg : String :=
  "To create a profile, please say: create profile VIN MAKE MODEL YEAR"

/-- Fallback prompt when nothing matched and no car is resolved. -/
def default_msg : String :=
  "Please provide your car's VIN to look up your profile, or say 'create profile' to register a new vehicle."

/-- The `handle_msg` handler: keyword classification over the lowercased
utterance, positional parsing, and the `try/except (IndexError, ValueError)`
blocks rendered as `Option` matches. The database `IntegrityError` is not
among the caught exception classes, so it escapes as `Except.error`. -/
def handle_msg (msg : String) (st : AssistantFnc) (store : List Car) :
    Except DBError (String × AssistantFnc × List Car) :=
  let msg_lower := pyLower msg
  if strContains msg_lower "lookup" && strContains msg_lower "vin" then
    let parts := pySplit msg_lower
    match idxOf "vin" parts with
    | none => .ok (lookup_retry_msg, st, store)
    | some i =>
      match parts[i + 1]? with
      | none => .ok (lookup_retry_msg, st, store)
      | some vin =>
        let r := AssistantFnc.lookup_car st store vin
        .ok (r.1, r.2, store)
  else if strContains msg_lower "create profile" then
    let parts := pySplit msg
    match parts[2]?, parts[3]?, parts[4]?, parts[5]? with
    | some vin, some make, some model, some ystr =>
      match pyInt ystr with
      | some year => AssistantFnc.create_car st store vin make model year
      | none => .ok (create_retry_msg, st, store)
    | _, _, _, _ => .ok (create_retry_msg, st, store)
  else if AssistantFnc.has_car st then
    .ok (AssistantFnc.get_car_details st, st, store)
  else
    .ok (default_msg, st, store)

/-- The closed set of intents of the rule-based classifier (spec §4.2). -/
inductive Intent where
  | lookup
  | create
  | query
  | unknown
deriving DecidableEq

/-- The classifier embodied by `handle_msg`'s `if/elif` chain: rule order is
lookup, create, query (details of a resolved car), unknown. -/
def classify (msg : String) (hasCar : Bool) : Intent :=
  let msg_lower := pyLower msg
  if strContains msg_lower "lookup" && strContains msg_lower "vin" then
    Intent.lookup
  else if strContains msg_lower "create profile" then
    Intent.create
  else if hasCar then
    Intent.query
  else
    Intent.unknown

/-- Store invariant of spec §3: at most one row per vin. -/
def uniqueVins (store : List Car) : Prop :=
  store.Pairwise (fun a b => a.vin ≠ b.vin)

/-- Does the string contain an ASCII uppercase letter? -/
def hasUpperA (s : String) : Bool :=
  s.data.any (fun c => decide ('A' ≤ c) && decide (c ≤ 'Z'))

/-- CODE OBSERVATION (claim C1). Starting from an empty store and a fresh
session, the utterance `"create profile 1HGCM82633A004352 Honda Accord 2003"`
does store the record and answer the creation confirmation with the session
resolved — but the follow-up `"lookup vin 1HGCM82633A004352"` answers
`"Car not found"` (the lookup branch extracts the VIN from the lowercased
utterance while the stored VIN keeps its original case and the store
comparison is case-sensitive), not the rendered record the claim requires. -/
theorem c1_roundtrip_breaks_at_lookup :
    handle_msg "create profile 1HGCM82633A004352 Honda Accord 2003"
        AssistantFnc.init [] =
      .ok ("Car profile created!",
        ⟨"1HGCM82633A004352", "Honda", "Accord", "2003"⟩,
        [⟨"1HGCM82633A004352", "Honda", "Accord", 2003⟩]) ∧
    AssistantFnc.has_car ⟨"1HGCM82633A004352", "Honda", "Accord", "2003"⟩ = true ∧
    handle_msg "lookup vin 1HGCM82633A004352"
        ⟨"1HGCM82633A004352", "Honda", "Accord", "2003"⟩
        [⟨"1HGCM82633A004352", "Honda", "Accord", 2003⟩] =
      .ok ("Car not found",
        ⟨"1HGCM82633A004352", "Honda", "Accord", "2003"⟩,
        [⟨"1HGCM82633A004352", "Honda", "Accord", 2003⟩]) ∧
    "Car not found" ≠
      "The car details are:\n" ++
        AssistantFnc.get_car_str ⟨"1HGCM82633A004352", "Honda", "Accord", "2003"⟩ := by
  refine ⟨rfl, rfl, rfl, ?_⟩
  decide

/-- CODE OBSERVATION (claim C2). A create utterance whose VIN already exists
in the store makes the handler end in the database `IntegrityError`: the
`try` around the create branch catches only `IndexError` and `ValueError`, so
the duplicate-key condition propagates to the caller as a fault instead of
being recovered into a creation-failed message. -/
theorem c2_duplicate_create_propagates :
    handle_msg "create profile V1 Honda Accord 2003" AssistantFnc.init
      [⟨"V1", "Honda", "Civic", 2000⟩] = .error .integrityError := rfl

/-- Counterexample to claim C6 as stated: in `"lookup vin x vin"` the token
`"vin"` is the last token of the lowercased split, yet the handler does not
answer the prompt-for-retry — `parts.index("vin")` finds the first
occurrence, which is followed by `"x"`, so the store is consulted and the
response is `"Car not found"`. -/
theorem c6_counterexample :
    (pySplit (pyLower "lookup vin x vin")).getLast? = some "vin" ∧
    handle_msg "lookup vin x vin" AssistantFnc.init [] =
      .ok ("Car not found", AssistantFnc.init, []) ∧
    (("Car not found" : String) == lookup_retry_msg) = false := by
  exact ⟨rfl, rfl, rfl⟩

/-- Claim C3. Intent precedence: any utterance that satisfies both the lookup
trigger (lowercased text contains `"lookup"` and `"vin"`) and the create
trigger (contains `"create profile"`) classifies as Lookup, never Create
(rule 1 wins); classification is total and unambiguous — every utterance maps
to exactly one of the four intents; and on such double-trigger utterances the
handler runs the lookup branch, which never writes the store. -/
theorem c3_intent_precedence :
    (∀ (msg : String) (hasCar : Bool),
      strContains (pyLower msg) "lookup" = true →
      strContains (pyLower msg) "vin" = true →
      strContains (pyLower msg) "create profile" = true →
      classify msg hasCar = Intent.lookup ∧ classify msg hasCar ≠ Intent.create) ∧
    (∀ (msg : String) (hasCar : Bool), ∃! i : Intent, classify msg hasCar = i) ∧
    (∀ (msg : String) (st : AssistantFnc) (store : List Car),
      strContains (pyLower msg) "lookup" = true →
      strContains (pyLower msg) "vin" = true →
      ∃ resp st', handle_msg msg st store = .ok (resp, st', store)) := by
  refine ⟨?_, ?_, ?_⟩
  · intro msg hasCar h1 h2 _h3
    constructor <;> simp [classify, h1, h2]
  · intro msg hasCar
    exact ⟨classify msg hasCar, rfl, fun j h => h.symm⟩
  · intro msg st store h1 h2
    cases hidx : idxOf "vin" (pySplit (pyLower msg)) with
    | none => exact ⟨lookup_retry_msg, st, by simp [handle_msg, h1, h2, hidx]⟩
    | some i =>
      cases hget : (pySplit (pyLower msg))[i + 1]? with
      | none => exact ⟨lookup_retry_msg, st, by simp [handle_msg, h1, h2, hidx, hget]⟩
      | some v =>
        exact ⟨(AssistantFnc.lookup_car st store v).1,
          (AssistantFnc.lookup_car st store v).2,
          by simp [handle_msg, h1, h2, hidx, hget]⟩

/-- Closed instance of `c3_intent_precedence` at the double-trigger utterance
`"lookup vin create profile 9"`: it classifies as Lookup and the handler
leaves the store unchanged. -/
theorem c3_intent_precedence_witness :
    classify "lookup vin create profile 9" true = Intent.lookup ∧
    (∃ resp st', handle_msg "lookup vin create profile 9" AssistantFnc.init [] =
      .ok (resp, st', [])) :=
  ⟨(c3_intent_precedence.1 "lookup vin create profile 9" true rfl rfl rfl).1,
    c3_intent_precedence.2.2 "lookup vin create profile 9" AssistantFnc.init [] rfl rfl⟩

/-- A vin absent from every row makes the duplicate check of the insert
fail, so the row list is extended. -/
lemma any_vin_eq_false {store : List Car} {v : String}
    (hfree : ∀ c ∈ store, c.vin ≠ v) :
    store.any (fun c => c.vin == v) = false := by
  rw [Bool.eq_false_iff]
  rw [Ne, List.any_eq_true]
  rintro ⟨x, hx, hbx⟩
  exact hfree x hx (by simpa using hbx)

/-- A vin absent from every row is not found. -/
lemma get_car_by_vin_eq_none {store : List Car} {v : String}
    (hfree : ∀ c ∈ store, c.vin ≠ v) :
    DatabaseDriver.get_car_by_vin store v = none := by
  unfold DatabaseDriver.get_car_by_vin
  rw [List.find?_eq_none]
  intro x hx
  simpa using hfree x hx

/-- Claim C5. Record-store postcondition: a vin not yet stored looks up to
not-found; a successful create of `(v, m, d, y)` returns exactly that record,
unnormalized, and afterwards looking up `v` returns exactly it. -/
theorem c5_record_store_postcondition (store : List Car) (v m d : String) (y : Int)
    (hfree : ∀ c ∈ store, c.vin ≠ v) :
    DatabaseDriver.get_car_by_vin store v = none ∧
    ∃ store', DatabaseDriver.create_car store v m d y = .ok (⟨v, m, d, y⟩, store') ∧
      DatabaseDriver.get_car_by_vin store' v = some ⟨v, m, d, y⟩ := by
  have hnone := get_car_by_vin_eq_none hfree
  refine ⟨hnone, store ++ [⟨v, m, d, y⟩], ?_, ?_⟩
  · simp [DatabaseDriver.create_car, any_vin_eq_false hfree]
  · unfold DatabaseDriver.get_car_by_vin at hnone ⊢
    rw [List.find?_append, hnone]
    simp [List.find?]

/-- Closed instance of `c5_record_store_postcondition`: creating
`("1HGCM82633A004352", "Honda", "Accord", 2003)` in the empty store and
looking it up again. -/
theorem c5_record_store_postcondition_witness :
    DatabaseDriver.get_car_by_vin [] "1HGCM82633A004352" = none ∧
    ∃ store', DatabaseDriver.create_car [] "1HGCM82633A004352" "Honda" "Accord" 2003 =
        .ok (⟨"1HGCM82633A004352", "Honda", "Accord", 2003⟩, store') ∧
      DatabaseDriver.get_car_by_vin store' "1HGCM82633A004352" =
        some ⟨"1HGCM82633A004352", "Honda", "Accord", 2003⟩ :=
  c5_record_store_postcondition [] "1HGCM82633A004352" "Honda" "Accord" 2003
    (by intro c hc; cases hc)

/-- Claim C4. Store uniqueness invariant: starting from a store with at most
one row per vin and a free vin `v`, the first create succeeds and preserves
the invariant, a second create of the same vin fails with the duplicate-key
error instead of overwriting, and after the failed second create `v` still
looks up to the first record, unchanged. -/
theorem c4_store_uniqueness (store : List Car) (v m d m2 d2 : String) (y y2 : Int)
    (hinv : uniqueVins store) (hfree : ∀ c ∈ store, c.vin ≠ v) :
    ∃ store₁,
      DatabaseDriver.create_car store v m d y = .ok (⟨v, m, d, y⟩, store₁) ∧
      uniqueVins store₁ ∧
      DatabaseDriver.create_car store₁ v m2 d2 y2 = .error .integrityError ∧
      DatabaseDriver.get_car_by_vin store₁ v = some ⟨v, m, d, y⟩ := by
  have hnone := get_car_by_vin_eq_none hfree
  refine ⟨store ++ [⟨v, m, d, y⟩], ?_, ?_, ?_, ?_⟩
  · simp [DatabaseDriver.create_car, any_vin_eq_false hfree]
  · rw [uniqueVins, List.pairwise_append]
    refine ⟨hinv, List.pairwise_singleton _ _, ?_⟩
    intro a ha b hb
    rw [List.mem_singleton] at hb
    subst hb
    exact hfree a ha
  · have hdup : (store ++ [(⟨v, m, d, y⟩ : Car)]).any (fun c => c.vin == v) = true :=
      List.any_eq_true.mpr ⟨⟨v, m, d, y⟩, List.mem_append_right _ (List.mem_singleton_self _), by simp⟩
    simp [DatabaseDriver.create_car, hdup]
  · unfold DatabaseDriver.get_car_by_vin at hnone ⊢
    rw [List.find?_append, hnone]
    simp [List.find?]

/-- Closed instance of `c4_store_uniqueness`: create vin `"B"` next to an
existing row `"A"`, then fail to create `"B"` again and still find the first
`"B"` record. -/
theorem c4_store_uniqueness_witness :
    ∃ store₁,
      DatabaseDriver.create_car [⟨"A", "a", "a", 1⟩] "B" "m" "d" 2 =
        .ok (⟨"B", "m", "d", 2⟩, store₁) ∧
      uniqueVins store₁ ∧
      DatabaseDriver.create_car store₁ "B" "n" "e" 3 = .error .integrityError ∧
      DatabaseDriver.get_car_by_vin store₁ "B" = some ⟨"B", "m", "d", 2⟩ :=
  c4_store_uniqueness [⟨"A", "a", "a", 1⟩] "B" "m" "d" "n" "e" 2 3
    (by simp [uniqueVins]) (by intro c hc; rw [List.mem_singleton] at hc; subst hc; decide)

/-- Claim C6 as amended. For every utterance matched by the lookup rule in
which the first occurrence of the token `"vin"` is the last token (so nothing
follows it), or whose token sequence does not contain the token `"vin"` at
all, the handler answers the prompt-for-retry with the session state and the
store returned unchanged (and the response is the same whatever the store
holds, since the store is never consulted). -/
theorem c6_malformed_lookup_retry (msg : String) (st : AssistantFnc) (store : List Car)
    (h1 : strContains (pyLower msg) "lookup" = true)
    (h2 : strContains (pyLower msg) "vin" = true)
    (hmal : idxOf "vin" (pySplit (pyLower msg)) = none ∨
      ∃ i, idxOf "vin" (pySplit (pyLower msg)) = some i ∧
        (pySplit (pyLower msg))[i + 1]? = none) :
    handle_msg msg st store = .ok (lookup_retry_msg, st, store) := by
  rcases hmal with hidx | ⟨i, hidx, hget⟩
  · simp [handle_msg, h1, h2, hidx]
  · simp [handle_msg, h1, h2, hidx, hget]

/-- Closed instance of `c6_malformed_lookup_retry` at `"lookup vin"`, where
the first `"vin"` token is the last token. -/
theorem c6_malformed_lookup_retry_witness :
    handle_msg "lookup vin" AssistantFnc.init [] =
      .ok (lookup_retry_msg, AssistantFnc.init, []) :=
  c6_malformed_lookup_retry "lookup vin" AssistantFnc.init [] rfl rfl
    (Or.inr ⟨1, rfl, rfl⟩)

/-- Claim C7. Every utterance that reaches the create rule (contains
`"create profile"`, does not trigger the lookup rule) with fewer than six
whitespace-split tokens, or whose sixth token does not parse as an integer,
makes the handler answer the retry-format prompt with the store and the
session state returned unchanged. -/
theorem c7_malformed_create_retry (msg : String) (st : AssistantFnc) (store : List Car)
    (hnl : ¬(strContains (pyLower msg) "lookup" = true ∧
      strContains (pyLower msg) "vin" = true))
    (hc : strContains (pyLower msg) "create profile" = true)
    (hbad : (pySplit msg)[5]? = none ∨
      ∃ t, (pySplit msg)[5]? = some t ∧ pyInt t = none) :
    handle_msg msg st store = .ok (create_retry_msg, st, store) := by
  have hab : (strContains (pyLower msg) "lookup" &&
      strContains (pyLower msg) "vin") = false := by
    cases hx : strContains (pyLower msg) "lookup" <;>
      cases hy : strContains (pyLower msg) "vin" <;> simp_all
  rcases hbad with h5 | ⟨t, h5, hint⟩
  · cases h2 : (pySplit msg)[2]? <;> cases h3 : (pySplit msg)[3]? <;>
      cases h4 : (pySplit msg)[4]? <;> simp [handle_msg, hab, hc, h2, h3, h4, h5]
  · have hlen : 5 < (pySplit msg).length := by
      cases hl : (pySplit msg)[5]? with
      | none => rw [hl] at h5; cases h5
      | some a =>
        by_contra hcon
        rw [List.getElem?_eq_none (by omega)] at hl
        cases hl
    have h2 := List.getElem?_eq_getElem (l := pySplit msg) (n := 2) (by omega)
    have h3 := List.getElem?_eq_getElem (l := pySplit msg) (n := 3) (by omega)
    have h4 := List.getElem?_eq_getElem (l := pySplit msg) (n := 4) (by omega)
    simp [handle_msg, hab, hc, h2, h3, h4, h5, hint]

/-- Closed instance of `c7_malformed_create_retry` at the spec scenario
`"create profile 123"` (too few tokens): retry-format prompt, store and
session unchanged. -/
theorem c7_malformed_create_retry_witness :
    handle_msg "create profile 123" AssistantFnc.init [] =
      .ok (create_retry_msg, AssistantFnc.init, []) :=
  c7_malformed_create_retry "create profile 123" AssistantFnc.init []
    (by decide) rfl (Or.inl rfl)

/-- Claim C8. A lookup intent whose extracted vin is not in the store answers
`"Car not found"` and returns the session state exactly as it was (an
unresolved session stays unresolved, a resolved one keeps its record), with
the store unchanged. -/
theorem c8_lookup_miss_unchanged (msg : String) (st : AssistantFnc) (store : List Car)
    (i : Nat) (v : String)
    (h1 : strContains (pyLower msg) "lookup" = true)
    (h2 : strContains (pyLower msg) "vin" = true)
    (hidx : idxOf "vin" (pySplit (pyLower msg)) = some i)
    (hv : (pySplit (pyLower msg))[i + 1]? = some v)
    (hmiss : DatabaseDriver.get_car_by_vin store v = none) :
    handle_msg msg st store = .ok ("Car not found", st, store) := by
  simp [handle_msg, h1, h2, hidx, hv, AssistantFnc.lookup_car, hmiss]

/-- Closed instance of `c8_lookup_miss_unchanged` at the spec scenario
`"lookup vin 1HGCM82633A004352"` on the empty store with a fresh session. -/
theorem c8_lookup_miss_unchanged_witness :
    handle_msg "lookup vin 1HGCM82633A004352" AssistantFnc.init [] =
      .ok ("Car not found", AssistantFnc.init, []) :=
  c8_lookup_miss_unchanged "lookup vin 1HGCM82633A004352" AssistantFnc.init []
    1 "1hgcm82633a004352" rfl rfl rfl rfl rfl

/-- Python's ASCII lowering never produces an uppercase letter. -/
lemma pyToLower_not_upper (c : Char) :
    (decide ('A' ≤ pyToLower c) && decide (pyToLower c ≤ 'Z')) = false := by
  unfold pyToLower
  by_cases h : 'A' ≤ c ∧ c ≤ 'Z'
  · rw [if_pos h]
    have hvalid : Nat.isValidChar (c.toNat + 32) := by
      left
      have h90 : c.toNat ≤ 90 := h.2
      omega
    have htn : (Char.ofNat (c.toNat + 32)).toNat = c.toNat + 32 := by
      simp only [Char.ofNat]
      rw [dif_pos hvalid]
      rfl
    have h65 : 65 ≤ c.toNat := h.1
    have hnot : ¬(Char.ofNat (c.toNat + 32) ≤ 'Z') := by
      intro hle
      have h90 : (Char.ofNat (c.toNat + 32)).toNat ≤ 90 := hle
      rw [htn] at h90
      omega
    simp [hnot]
  · rw [if_neg h]
    rcases not_and_or.mp h with h' | h' <;> simp [h']

/-- Every character of a word produced by `wordsAux` comes from the input
character list or the accumulator. -/
lemma mem_wordsAux (l : List Char) :
    ∀ (acc : List Char) (t : String), t ∈ wordsAux l acc →
      ∀ c ∈ t.data, c ∈ l ∨ c ∈ acc := by
  induction l with
  | nil =>
    intro acc t ht c hc
    unfold wordsAux at ht
    by_cases he : acc.isEmpty
    · rw [if_pos he] at ht
      cases ht
    · rw [if_neg he] at ht
      rw [List.mem_singleton] at ht
      subst ht
      right
      exact List.mem_reverse.mp hc
  | cons ch rest ih =>
    intro acc t ht c hc
    unfold wordsAux at ht
    by_cases hs : pyIsSpace ch
    · rw [if_pos hs] at ht
      by_cases he : acc.isEmpty
      · rw [if_pos he] at ht
        rcases ih [] t ht c hc with h | h
        · exact Or.inl (List.mem_cons_of_mem _ h)
        · cases h
      · rw [if_neg he] at ht
        rcases List.mem_cons.mp ht with h | h
        · subst h
          right
          exact List.mem_reverse.mp hc
        · rcases ih [] t h c hc with h' | h'
          · exact Or.inl (List.mem_cons_of_mem _ h')
          · cases h'
    · rw [if_neg hs] at ht
      rcases ih (ch :: acc) t ht c hc with h | h
      · exact Or.inl (List.mem_cons_of_mem _ h)
      · rcases List.mem_cons.mp h with h' | h'
        · subst h'
          exact Or.inl (List.mem_cons_self _ _)
        · exact Or.inr h'

/-- No token of the whitespace-split lowercased utterance contains an ASCII
uppercase letter. -/
lemma token_of_lower_no_upper (msg t : String) (ht : t ∈ pySplit (pyLower msg)) :
    hasUpperA t = false := by
  unfold hasUpperA
  rw [Bool.eq_false_iff, Ne, List.any_eq_true]
  rintro ⟨c, hc, hcb⟩
  rcases mem_wordsAux (pyLower msg).data [] t ht c hc with hmem | hmem
  · have hmap : c ∈ msg.data.map pyToLower := hmem
    rcases List.mem_map.mp hmap with ⟨c0, _, rfl⟩
    rw [pyToLower_not_upper c0] at hcb
    cases hcb
  · cases hmem

/-- Claim C9. In the lookup branch the vin handed to the store is always a
token of the lowercased utterance, hence free of ASCII uppercase letters;
since the store compares vins case-sensitively, a stored record whose vin
contains an uppercase letter is never the record the lookup returns — for it,
the branch always answers as if the car were absent. -/
theorem c9_lowercased_lookup_never_finds_upper (msg : String) (store : List Car)
    (r : Car) (i : Nat) (v : String)
    (_hr : r ∈ store) (hup : hasUpperA r.vin = true)
    (_h1 : strContains (pyLower msg) "lookup" = true)
    (_h2 : strContains (pyLower msg) "vin" = true)
    (_hidx : idxOf "vin" (pySplit (pyLower msg)) = some i)
    (hv : (pySplit (pyLower msg))[i + 1]? = some v) :
    v ∈ pySplit (pyLower msg) ∧ hasUpperA v = false ∧
    DatabaseDriver.get_car_by_vin store v ≠ some r := by
  have hvmem : v ∈ pySplit (pyLower msg) := List.getElem?_mem hv
  have hvlow : hasUpperA v = false := token_of_lower_no_upper msg v hvmem
  refine ⟨hvmem, hvlow, ?_⟩
  intro hfound
  unfold DatabaseDriver.get_car_by_vin at hfound
  have hpred := List.find?_some hfound
  have hrv : r.vin = v := by simpa using hpred
  rw [hrv, hvlow] at hup
  cases hup

/-- Closed instance of `c9_lowercased_lookup_never_finds_upper`: the stored
record with vin `"ABC"` is never returned for the utterance
`"lookup vin ABC"`, whose extracted vin token is the lowercased `"abc"`. -/
theorem c9_lowercased_lookup_never_finds_upper_witness :
    ("abc" : String) ∈ pySplit (pyLower "lookup vin ABC") ∧
    hasUpperA "abc" = false ∧
    DatabaseDriver.get_car_by_vin [⟨"ABC", "Honda", "Civic", 2000⟩] "abc" ≠
      some ⟨"ABC", "Honda", "Civic", 2000⟩ :=
  c9_lowercased_lookup_never_finds_upper "lookup vin ABC"
    [⟨"ABC", "Honda", "Civic", 2000⟩] ⟨"ABC", "Honda", "Civic", 2000⟩ 1 "abc"
    (List.mem_singleton_self _) rfl rfl rfl rfl rfl

/-- Claim C10. The database create either fails (the raised duplicate-key
error) or returns a `Car` equal to its arguments — never a missing value; so
the `"Failed to create car"` branch of the assistant's create (guarding
`result is None`) is unreachable, and a duplicate-vin create surfaces as the
propagated error, not as that failure message. -/
theorem c10_create_never_none (st : AssistantFnc) (store : List Car)
    (vin make model : String) (year : Int) :
    (DatabaseDriver.create_car store vin make model year = .error .integrityError ∨
      ∃ store', DatabaseDriver.create_car store vin make model year =
        .ok (⟨vin, make, model, year⟩, store')) ∧
    (∀ st' store', AssistantFnc.create_car st store vin make model year ≠
      .ok ("Failed to create car", st', store')) ∧
    ((∃ c ∈ store, c.vin = vin) →
      AssistantFnc.create_car st store vin make model year = .error .integrityError) := by
  have hmsg : ("Car profile created!" : String) ≠ "Failed to create car" := by decide
  by_cases hdup : store.any (fun c => c.vin == vin) = true
  · refine ⟨Or.inl ?_, ?_, ?_⟩
    · simp [DatabaseDriver.create_car, hdup]
    · intro st' store'
      simp [AssistantFnc.create_car, DatabaseDriver.create_car, hdup]
    · intro _
      simp [AssistantFnc.create_car, DatabaseDriver.create_car, hdup]
  · have hdup' : store.any (fun c => c.vin == vin) = false :=
      Bool.eq_false_iff.mpr hdup
    refine ⟨Or.inr ⟨store ++ [⟨vin, make, model, year⟩], ?_⟩, ?_, ?_⟩
    · simp [DatabaseDriver.create_car, hdup']
    · intro st' store'
      simp [AssistantFnc.create_car, DatabaseDriver.create_car, hdup', hmsg]
    · rintro ⟨c, hc, hcv⟩
      exact absurd (List.any_eq_true.mpr ⟨c, hc, by simp [hcv]⟩) hdup

/-- Closed instance of `c10_create_never_none`: with vin `"V1"` already
stored, the assistant's create ends in the propagated duplicate-key error,
not in any returned message. -/
theorem c10_create_never_none_witness :
    AssistantFnc.create_car AssistantFnc.init [⟨"V1", "Honda", "Civic", 2000⟩]
      "V1" "Kia" "Rio" 2010 = .error .integrityError :=
  (c10_create_never_none AssistantFnc.init [⟨"V1", "Honda", "Civic", 2000⟩]
    "V1" "Kia" "Rio" 2010).2.2 ⟨⟨"V1", "Honda", "Civic", 2000⟩, List.mem_singleton_self _, rfl⟩
